import Mathlib

/-!
Verification of the request/response mediation layer of the
globalwinescore command-line client (src/api.js).

The embedding translates the JavaScript source into Lean:

* query-parameter values are strings, booleans or numbers (`JVal`);
* the filter object accepted by `getLatestScores` and friends becomes the
  structure `ScoreFilter`, each field an `Option` (a JavaScript field that
  is absent or `undefined` is `none`);
* each line `if (filters.x) params.x = filters.x;` of the parameter block
  becomes one list segment (`strParam`, `intParam`); the JavaScript
  truthiness test drops `undefined`, the empty string and `0`.  The line
  `if (filters.is_primeurs !== undefined) ...` becomes
  `boolParamIfDefined`, which keeps an explicitly set `false`;
* the axios call is modelled by a transport function
  `HttpGet → TransportOutcome`; the `catch` block of `request` becomes
  `classifyError`, one constructor of `ApiError` per `throw` site, each
  carrying the exact message string the source builds;
* `request` returns the classified outcome together with the number of
  HTTP GET calls issued, so that fail-fast and single-call properties can
  be stated.
-/

namespace GWS

/-- Value of a query parameter as placed into the axios params object:
the client uses strings, booleans and integers. -/
inductive JVal where
  | s (v : String)
  | b (v : Bool)
  | n (v : Int)
  deriving DecidableEq, Repr

/-- Filter object accepted by `getLatestScores` and `getHistoricalScores`
(see the JSDoc block in src/api.js); every field is optional. A field
holding `none` corresponds to a JavaScript field that is absent or
`undefined`. -/
structure ScoreFilter where
  wine_id : Option String := none
  vintage : Option String := none
  color : Option String := none
  is_primeurs : Option Bool := none
  lwin : Option String := none
  lwin_11 : Option String := none
  limit : Option Int := none
  offset : Option Int := none
  ordering : Option String := none
  deriving DecidableEq, Repr

/-- One line `if (filters.f) params.f = filters.f;` for a string field:
JavaScript truthiness admits the value only when it is defined and not
the empty string. -/
def strParam (name : String) (v : Option String) : List (String × JVal) :=
  match v with
  | some s => if s = "" then [] else [(name, JVal.s s)]
  | none => []

/-- One line `if (filters.f) params.f = filters.f;` for a numeric field:
JavaScript truthiness admits the value only when it is defined and not
`0`.  (`NaN`, also falsy, is outside the integer model.) -/
def intParam (name : String) (v : Option Int) : List (String × JVal) :=
  match v with
  | some k => if k = 0 then [] else [(name, JVal.n k)]
  | none => []

/-- Line `if (filters.is_primeurs !== undefined) params.is_primeurs =
filters.is_primeurs;`: the boolean is transmitted whenever it is defined,
including an explicit `false`. -/
def boolParamIfDefined (name : String) (v : Option Bool) : List (String × JVal) :=
  match v with
  | some b => [(name, JVal.b b)]
  | none => []

/-- Parameter map built by `getLatestScores` (src/api.js lines 59-70),
in the insertion order of the source.  The appends are nested to the
right so that each conditional line is one visible segment. -/
def buildLatestParams (f : ScoreFilter) : List (String × JVal) :=
  strParam "wine_id" f.wine_id ++
    (strParam "vintage" f.vintage ++
      (strParam "color" f.color ++
        (boolParamIfDefined "is_primeurs" f.is_primeurs ++
          (strParam "lwin" f.lwin ++
            (strParam "lwin_11" f.lwin_11 ++
              (intParam "limit" f.limit ++
                (intParam "offset" f.offset ++
                  strParam "ordering" f.ordering)))))))

/-- Parameter map built by `getHistoricalScores` (src/api.js lines
79-90); the source repeats the same nine conditional lines verbatim. -/
def buildHistoricalParams (f : ScoreFilter) : List (String × JVal) :=
  strParam "wine_id" f.wine_id ++
    (strParam "vintage" f.vintage ++
      (strParam "color" f.color ++
        (boolParamIfDefined "is_primeurs" f.is_primeurs ++
          (strParam "lwin" f.lwin ++
            (strParam "lwin_11" f.lwin_11 ++
              (intParam "limit" f.limit ++
                (intParam "offset" f.offset ++
                  strParam "ordering" f.ordering)))))))

/-- JSON value, used for response bodies: the client returns
`response.data` without looking inside it. -/
inductive Json where
  | null
  | bool (b : Bool)
  | num (n : Int)
  | str (s : String)
  | arr (elems : List Json)
  | obj (fields : List (String × Json))

/-- Part of the axios rejection object that `request` inspects: when the
server answered, `error.response` holds the status and
`error.response.data.detail` may hold a machine-readable message.  A
rejection without a response (network error, local throw) has `none`
here. -/
structure ErrorResponse where
  status : Nat
  detail : Option String
  deriving DecidableEq, Repr

/-- Outcome of one axios GET: fulfilled with a body (a 2xx answer under
the default validateStatus), or rejected with an optional server
response and a message. -/
inductive TransportOutcome where
  | ok (body : Json)
  | err (response : Option ErrorResponse) (message : String)

/-- One HTTP GET as handed to axios: url, headers and params. -/
structure HttpGet where
  url : String
  headers : List (String × String)
  params : List (String × JVal)

def BASE_URL : String := "https://api.globalwinescore.com"

/-- Message of the error thrown by getHeaders when no token is
configured (src/api.js line 9). -/
def noTokenMsg : String :=
  "API token not configured. Run: globalwinescore config set --api-token YOUR_TOKEN"

/-- Message thrown on a 401 response (src/api.js line 26). -/
def authFailedMsg : String := "Authentication failed. Check your API token."

/-- Message thrown on a 429 response (src/api.js line 29). -/
def rateLimitedMsg : String := "Rate limit exceeded. Maximum 10 requests per minute."

/-- Message thrown on a 403 response (src/api.js line 32). -/
def forbiddenMsg : String := "Access forbidden. This endpoint may require a business plan."

/-- Headers built by getHeaders once a token is present. -/
def requestHeaders (token : String) : List (String × String) :=
  [("Authorization", "Token " ++ token), ("Accept", "application/json")]

/-- Translation of getHeaders (src/api.js lines 6-15): with no token it
throws an Error carrying `noTokenMsg`; otherwise it returns the header
object. -/
def getHeaders (token : Option String) : Except String (List (String × String)) :=
  match token with
  | none => Except.error noTokenMsg
  | some t => Except.ok (requestHeaders t)

/-- Classified failure of one request.  Each constructor corresponds to
one `throw` site of the catch block of `request` (src/api.js lines
24-37), in source order, and carries the exact message string the source
builds there.  The constructor names follow the error taxonomy of the
specification: 401, 429, 403, detail body, catch-all. -/
inductive ApiError where
  | unauthenticated (message : String)
  | rateLimited (message : String)
  | planRestricted (message : String)
  | remoteRejected (message : String)
  | transportFailure (message : String)
  deriving DecidableEq, Repr

/-- Catch block of `request` (src/api.js lines 24-37).  The source tests
`error.response?.status` against 401, 429 and 403 in that order, then
`error.response?.data?.detail`, then falls through to the generic
message; with no response object every optional chain is undefined and
only the generic branch can fire. -/
def classifyError (response : Option ErrorResponse) (message : String) : ApiError :=
  match response with
  | some r =>
    if r.status = 401 then ApiError.unauthenticated authFailedMsg
    else if r.status = 429 then ApiError.rateLimited rateLimitedMsg
    else if r.status = 403 then ApiError.planRestricted forbiddenMsg
    else
      match r.detail with
      | some d => ApiError.remoteRejected ("API Error: " ++ d)
      | none => ApiError.transportFailure ("Request failed: " ++ message)
  | none => ApiError.transportFailure ("Request failed: " ++ message)

/-- Result of one call of `request`: the classified outcome together
with the number of HTTP GET calls that were issued. -/
structure RequestResult where
  outcome : Except ApiError Json
  getCount : Nat

/-- Translation of `request` (src/api.js lines 17-39), parametrised by
the transport.  getHeaders is evaluated while the axios argument object
is built, inside the `try`: when it throws, axios.get is never invoked
(zero GET calls) and the thrown error, which has no `response` field,
reaches the same catch block.  Otherwise exactly one GET is issued and
its outcome is returned verbatim on fulfilment or classified on
rejection. -/
def request (token : Option String) (transport : HttpGet → TransportOutcome)
    (endpoint : String) (params : List (String × JVal)) : RequestResult :=
  match getHeaders token with
  | Except.error m => { outcome := Except.error (classifyError none m), getCount := 0 }
  | Except.ok hs =>
    match transport { url := BASE_URL ++ endpoint, headers := hs, params := params } with
    | TransportOutcome.ok body => { outcome := Except.ok body, getCount := 1 }
    | TransportOutcome.err r m => { outcome := Except.error (classifyError r m), getCount := 1 }

/-- Endpoint and parameter map of one query, before the transport is
consulted. -/
structure RequestSpec where
  endpoint : String
  params : List (String × JVal)
  deriving DecidableEq, Repr

/-- Request issued by getLatestScores (src/api.js line 72). -/
def getLatestScoresReq (f : ScoreFilter) : RequestSpec :=
  { endpoint := "/globalwinescores/latest/", params := buildLatestParams f }

/-- Request issued by getHistoricalScores (src/api.js line 92). -/
def getHistoricalScoresReq (f : ScoreFilter) : RequestSpec :=
  { endpoint := "/globalwinescores/", params := buildHistoricalParams f }

/-- Full getLatestScores operation including the transport. -/
def getLatestScores (token : Option String) (transport : HttpGet → TransportOutcome)
    (f : ScoreFilter) : RequestResult :=
  request token transport (getLatestScoresReq f).endpoint (getLatestScoresReq f).params

/-- Full getHistoricalScores operation including the transport. -/
def getHistoricalScores (token : Option String) (transport : HttpGet → TransportOutcome)
    (f : ScoreFilter) : RequestResult :=
  request token transport (getHistoricalScoresReq f).endpoint (getHistoricalScoresReq f).params

/-- JavaScript expression `x || d` for an optional integer: `undefined`
and `0` are falsy and select the default.  (`NaN`, also falsy, is
outside the integer model.) -/
def jsOrInt (v : Option Int) (d : Int) : Int :=
  match v with
  | some k => if k = 0 then d else k
  | none => d

/-- JavaScript expression `x || d` for an optional string: `undefined`
and the empty string are falsy and select the default. -/
def jsOrStr (v : Option String) (d : String) : String :=
  match v with
  | some s => if s = "" then d else s
  | none => d

/-- Effect of the object spread `...options` on one field of an object
literal: a key present in the spread source overwrites the entry written
earlier in the literal. -/
def spreadField {α : Type} (base : Option α) (src : Option α) : Option α :=
  match src with
  | some v => some v
  | none => base

/-- JavaScript String.prototype.toLowerCase restricted to the basic
character mapping, one character at a time. -/
def jsToLowerCase (s : String) : String := String.mk (s.data.map Char.toLower)

/-- Filter object built by searchWines (src/api.js lines 99-103):
`limit: options.limit || 20` and `ordering: options.ordering || defaultOrd`
are written first and the spread of options follows, so every field
present in options overwrites the two defaults. -/
def searchWinesFilter (options : ScoreFilter) : ScoreFilter :=
  { wine_id := options.wine_id
    vintage := options.vintage
    color := options.color
    is_primeurs := options.is_primeurs
    lwin := options.lwin
    lwin_11 := options.lwin_11
    limit := spreadField (some (jsOrInt options.limit 20)) options.limit
    offset := options.offset
    ordering := spreadField (some (jsOrStr options.ordering "-score")) options.ordering }

/-- Filter object built by getScoresByVintage (src/api.js lines
114-118): the vintage argument, the two defaults, then the spread of
options, which overwrites any of them when the key is present. -/
def getScoresByVintageFilter (vintage : String) (options : ScoreFilter) : ScoreFilter :=
  { wine_id := options.wine_id
    vintage := spreadField (some vintage) options.vintage
    color := options.color
    is_primeurs := options.is_primeurs
    lwin := options.lwin
    lwin_11 := options.lwin_11
    limit := spreadField (some (jsOrInt options.limit 50)) options.limit
    offset := options.offset
    ordering := spreadField (some (jsOrStr options.ordering "-score")) options.ordering }

/-- Filter object built by getScoresByColor (src/api.js lines 126-130):
the lower-cased color argument, the two defaults, then the spread of
options, which overwrites any of them when the key is present. -/
def getScoresByColorFilter (color : String) (options : ScoreFilter) : ScoreFilter :=
  { wine_id := options.wine_id
    vintage := options.vintage
    color := spreadField (some (jsToLowerCase color)) options.color
    is_primeurs := options.is_primeurs
    lwin := options.lwin
    lwin_11 := options.lwin_11
    limit := spreadField (some (jsOrInt options.limit 50)) options.limit
    offset := options.offset
    ordering := spreadField (some (jsOrStr options.ordering "-score")) options.ordering }

/-- Filter object built by getScoresByWineId (src/api.js lines
137-140). -/
def getScoresByWineIdFilter (wineId : String) (options : ScoreFilter) : ScoreFilter :=
  { wine_id := spreadField (some wineId) options.wine_id
    vintage := options.vintage
    color := options.color
    is_primeurs := options.is_primeurs
    lwin := options.lwin
    lwin_11 := options.lwin_11
    limit := options.limit
    offset := options.offset
    ordering := options.ordering }

/-- Filter object built by getScoresByLwin (src/api.js lines 147-150). -/
def getScoresByLwinFilter (lwin : String) (options : ScoreFilter) : ScoreFilter :=
  { wine_id := options.wine_id
    vintage := options.vintage
    color := options.color
    is_primeurs := options.is_primeurs
    lwin := spreadField (some lwin) options.lwin
    lwin_11 := options.lwin_11
    limit := options.limit
    offset := options.offset
    ordering := options.ordering }

/-- Filter object built by getTopRated (src/api.js lines 158-162): the
literal writes `limit: options.limit || 20`, then the fixed entry
`ordering: -score`, then the spread of options, so a key present in
options overwrites either entry, the fixed ordering included. -/
def getTopRatedFilter (options : ScoreFilter) : ScoreFilter :=
  { wine_id := options.wine_id
    vintage := options.vintage
    color := options.color
    is_primeurs := options.is_primeurs
    lwin := options.lwin
    lwin_11 := options.lwin_11
    limit := spreadField (some (jsOrInt options.limit 20)) options.limit
    offset := options.offset
    ordering := spreadField (some "-score") options.ordering }

/-- Request issued by getScoresByColor: it delegates to
getLatestScores. -/
def getScoresByColorReq (color : String) (options : ScoreFilter) : RequestSpec :=
  getLatestScoresReq (getScoresByColorFilter color options)

/-- Request issued by getTopRated: it delegates to getLatestScores. -/
def getTopRatedReq (options : ScoreFilter) : RequestSpec :=
  getLatestScoresReq (getTopRatedFilter options)

/-- Value that the string line of the parameter block contributes for
its key: the exact value when defined and truthy, nothing otherwise. -/
def strVal : Option String → Option JVal
  | some s => if s = "" then none else some (JVal.s s)
  | none => none

/-- Value that the numeric line of the parameter block contributes for
its key: the exact value when defined and truthy, nothing otherwise. -/
def intVal : Option Int → Option JVal
  | some k => if k = 0 then none else some (JVal.n k)
  | none => none

/-- Value that the is_primeurs line contributes for its key: the exact
boolean whenever the field is defined. -/
def boolVal : Option Bool → Option JVal
  | some b => some (JVal.b b)
  | none => none

/-- Names of the nine parameters the composition step can emit. -/
def paramNames : List String :=
  ["wine_id", "vintage", "color", "is_primeurs", "lwin", "lwin_11",
    "limit", "offset", "ordering"]

/-- String read back from a parameter value, when it is one. -/
def asStr : Option JVal → Option String
  | some (JVal.s v) => some v
  | _ => none

/-- Integer read back from a parameter value, when it is one. -/
def asInt : Option JVal → Option Int
  | some (JVal.n v) => some v
  | _ => none

/-- Boolean read back from a parameter value, when it is one. -/
def asBool : Option JVal → Option Bool
  | some (JVal.b v) => some v
  | _ => none

/-- Modelled from the spec: the repository has no query-parameter
parser, and the round-trip sentence of the specification speaks of
parsing a parameter map back by the same rules.  Each known key that is
present with a value of the matching shape becomes the corresponding
defined filter field; a missing key leaves the field undefined. -/
def parseParams (ps : List (String × JVal)) : ScoreFilter :=
  { wine_id := asStr (List.lookup "wine_id" ps)
    vintage := asStr (List.lookup "vintage" ps)
    color := asStr (List.lookup "color" ps)
    is_primeurs := asBool (List.lookup "is_primeurs" ps)
    lwin := asStr (List.lookup "lwin" ps)
    lwin_11 := asStr (List.lookup "lwin_11" ps)
    limit := asInt (List.lookup "limit" ps)
    offset := asInt (List.lookup "offset" ps)
    ordering := asStr (List.lookup "ordering" ps) }

/-- Condition under which every defined field of the filter survives the
truthiness test of the parameter block: no defined string field is empty
and no defined numeric field is zero.  The boolean is_primeurs field is
unrestricted, since it is transmitted whenever defined. -/
def truthyFilter (f : ScoreFilter) : Prop :=
  f.wine_id ≠ some "" ∧ f.vintage ≠ some "" ∧ f.color ≠ some "" ∧
    f.lwin ≠ some "" ∧ f.lwin_11 ≠ some "" ∧ f.limit ≠ some 0 ∧
    f.offset ≠ some 0 ∧ f.ordering ≠ some ""

/-- Taxonomy name of the branch a classified outcome came from, used to
compare an outcome against the category the specification announces. -/
def errorKind : Except ApiError Json → Option String
  | Except.error (ApiError.unauthenticated _) => some "Unauthenticated"
  | Except.error (ApiError.rateLimited _) => some "RateLimited"
  | Except.error (ApiError.planRestricted _) => some "PlanRestricted"
  | Except.error (ApiError.remoteRejected _) => some "RemoteRejected"
  | Except.error (ApiError.transportFailure _) => some "TransportFailure"
  | Except.ok _ => none

/-- Sample successful response body: a two-element page in server
order. -/
def samplePage : Json :=
  Json.obj [("count", Json.num 2), ("next", Json.null), ("previous", Json.null),
    ("results", Json.arr
      [Json.obj [("wine_name", Json.str "A"), ("score", Json.num 98)],
        Json.obj [("wine_name", Json.str "B"), ("score", Json.num 97)]])]

/-- Sample filter with every field defined and truthy. -/
def sampleFilter : ScoreFilter :=
  { wine_id := some "w1", vintage := some "2015", color := some "red",
    is_primeurs := some false, lwin := some "L1", lwin_11 := some "L11",
    limit := some 20, offset := some 3, ordering := some "-score" }

theorem lookup_strParam_skip (k name : String) (h : k ≠ name) (v : Option String)
    (rest : List (String × JVal)) :
    List.lookup k (strParam name v ++ rest) = List.lookup k rest := by
  match v with
  | none => rfl
  | some s =>
    by_cases hs : s = "" <;> simp [strParam, hs, List.lookup, beq_false_of_ne h]

theorem lookup_intParam_skip (k name : String) (h : k ≠ name) (v : Option Int)
    (rest : List (String × JVal)) :
    List.lookup k (intParam name v ++ rest) = List.lookup k rest := by
  match v with
  | none => rfl
  | some x =>
    by_cases hx : x = 0 <;> simp [intParam, hx, List.lookup, beq_false_of_ne h]

theorem lookup_boolParam_skip (k name : String) (h : k ≠ name) (v : Option Bool)
    (rest : List (String × JVal)) :
    List.lookup k (boolParamIfDefined name v ++ rest) = List.lookup k rest := by
  match v with
  | none => rfl
  | some b => simp [boolParamIfDefined, List.lookup, beq_false_of_ne h]

theorem lookup_strParam_head (name : String) (v : Option String)
    (rest : List (String × JVal)) (h : List.lookup name rest = none) :
    List.lookup name (strParam name v ++ rest) = strVal v := by
  match v with
  | none => simpa [strParam, strVal] using h
  | some s =>
    by_cases hs : s = "" <;> simp [strParam, strVal, hs, List.lookup, h]

theorem lookup_intParam_head (name : String) (v : Option Int)
    (rest : List (String × JVal)) (h : List.lookup name rest = none) :
    List.lookup name (intParam name v ++ rest) = intVal v := by
  match v with
  | none => simpa [intParam, intVal] using h
  | some x =>
    by_cases hx : x = 0 <;> simp [intParam, intVal, hx, List.lookup, h]

theorem lookup_boolParam_head (name : String) (v : Option Bool)
    (rest : List (String × JVal)) (h : List.lookup name rest = none) :
    List.lookup name (boolParamIfDefined name v ++ rest) = boolVal v := by
  match v with
  | none => simpa [boolParamIfDefined, boolVal] using h
  | some b => simp [boolParamIfDefined, boolVal, List.lookup]

theorem lookup_strParam_bare (k name : String) (h : k ≠ name) (v : Option String) :
    List.lookup k (strParam name v) = none := by
  match v with
  | none => rfl
  | some s =>
    by_cases hs : s = "" <;> simp [strParam, hs, List.lookup, beq_false_of_ne h]

theorem lookup_strParam_self (name : String) (v : Option String) :
    List.lookup name (strParam name v) = strVal v := by
  match v with
  | none => rfl
  | some s =>
    by_cases hs : s = "" <;> simp [strParam, strVal, hs, List.lookup]

theorem lookup_latest_wine_id (f : ScoreFilter) :
    List.lookup "wine_id" (buildLatestParams f) = strVal f.wine_id := by
  unfold buildLatestParams
  apply lookup_strParam_head
  rw [lookup_strParam_skip _ _ (by decide), lookup_strParam_skip _ _ (by decide),
    lookup_boolParam_skip _ _ (by decide), lookup_strParam_skip _ _ (by decide),
    lookup_strParam_skip _ _ (by decide), lookup_intParam_skip _ _ (by decide),
    lookup_intParam_skip _ _ (by decide)]
  exact lookup_strParam_bare _ _ (by decide) _

theorem lookup_latest_vintage (f : ScoreFilter) :
    List.lookup "vintage" (buildLatestParams f) = strVal f.vintage := by
  unfold buildLatestParams
  rw [lookup_strParam_skip _ _ (by decide)]
  apply lookup_strParam_head
  rw [lookup_strParam_skip _ _ (by decide), lookup_boolParam_skip _ _ (by decide),
    lookup_strParam_skip _ _ (by decide), lookup_strParam_skip _ _ (by decide),
    lookup_intParam_skip _ _ (by decide), lookup_intParam_skip _ _ (by decide)]
  exact lookup_strParam_bare _ _ (by decide) _

theorem lookup_latest_color (f : ScoreFilter) :
    List.lookup "color" (buildLatestParams f) = strVal f.color := by
  unfold buildLatestParams
  rw [lookup_strParam_skip _ _ (by decide), lookup_strParam_skip _ _ (by decide)]
  apply lookup_strParam_head
  rw [lookup_boolParam_skip _ _ (by decide), lookup_strParam_skip _ _ (by decide),
    lookup_strParam_skip _ _ (by decide), lookup_intParam_skip _ _ (by decide),
    lookup_intParam_skip _ _ (by decide)]
  exact lookup_strParam_bare _ _ (by decide) _

theorem lookup_latest_is_primeurs (f : ScoreFilter) :
    List.lookup "is_primeurs" (buildLatestParams f) = boolVal f.is_primeurs := by
  unfold buildLatestParams
  rw [lookup_strParam_skip _ _ (by decide), lookup_strParam_skip _ _ (by decide),
    lookup_strParam_skip _ _ (by decide)]
  apply lookup_boolParam_head
  rw [lookup_strParam_skip _ _ (by decide), lookup_strParam_skip _ _ (by decide),
    lookup_intParam_skip _ _ (by decide), lookup_intParam_skip _ _ (by decide)]
  exact lookup_strParam_bare _ _ (by decide) _

theorem lookup_latest_lwin (f : ScoreFilter) :
    List.lookup "lwin" (buildLatestParams f) = strVal f.lwin := by
  unfold buildLatestParams
  rw [lookup_strParam_skip _ _ (by decide), lookup_strParam_skip _ _ (by decide),
    lookup_strParam_skip _ _ (by decide), lookup_boolParam_skip _ _ (by decide)]
  apply lookup_strParam_head
  rw [lookup_strParam_skip _ _ (by decide), lookup_intParam_skip _ _ (by decide),
    lookup_intParam_skip _ _ (by decide)]
  exact lookup_strParam_bare _ _ (by decide) _

theorem lookup_latest_lwin_11 (f : ScoreFilter) :
    List.lookup "lwin_11" (buildLatestParams f) = strVal f.lwin_11 := by
  unfold buildLatestParams
  rw [lookup_strParam_skip _ _ (by decide), lookup_strParam_skip _ _ (by decide),
    lookup_strParam_skip _ _ (by decide), lookup_boolParam_skip _ _ (by decide),
    lookup_strParam_skip _ _ (by decide)]
  apply lookup_strParam_head
  rw [lookup_intParam_skip _ _ (by decide), lookup_intParam_skip _ _ (by decide)]
  exact lookup_strParam_bare _ _ (by decide) _

theorem lookup_latest_limit (f : ScoreFilter) :
    List.lookup "limit" (buildLatestParams f) = intVal f.limit := by
  unfold buildLatestParams
  rw [lookup_strParam_skip _ _ (by decide), lookup_strParam_skip _ _ (by decide),
    lookup_strParam_skip _ _ (by decide), lookup_boolParam_skip _ _ (by decide),
    lookup_strParam_skip _ _ (by decide), lookup_strParam_skip _ _ (by decide)]
  apply lookup_intParam_head
  rw [lookup_intParam_skip _ _ (by decide)]
  exact lookup_strParam_bare _ _ (by decide) _

theorem lookup_latest_offset (f : ScoreFilter) :
    List.lookup "offset" (buildLatestParams f) = intVal f.offset := by
  unfold buildLatestParams
  rw [lookup_strParam_skip _ _ (by decide), lookup_strParam_skip _ _ (by decide),
    lookup_strParam_skip _ _ (by decide), lookup_boolParam_skip _ _ (by decide),
    lookup_strParam_skip _ _ (by decide), lookup_strParam_skip _ _ (by decide),
    lookup_intParam_skip _ _ (by decide)]
  apply lookup_intParam_head
  exact lookup_strParam_bare _ _ (by decide) _

theorem lookup_latest_ordering (f : ScoreFilter) :
    List.lookup "ordering" (buildLatestParams f) = strVal f.ordering := by
  unfold buildLatestParams
  rw [lookup_strParam_skip _ _ (by decide), lookup_strParam_skip _ _ (by decide),
    lookup_strParam_skip _ _ (by decide), lookup_boolParam_skip _ _ (by decide),
    lookup_strParam_skip _ _ (by decide), lookup_strParam_skip _ _ (by decide),
    lookup_intParam_skip _ _ (by decide), lookup_intParam_skip _ _ (by decide)]
  exact lookup_strParam_self _ _

theorem lookup_latest_other (f : ScoreFilter) (k : String) (hk : k ∉ paramNames) :
    List.lookup k (buildLatestParams f) = none := by
  simp only [paramNames, List.mem_cons, List.not_mem_nil, or_false, not_or] at hk
  obtain ⟨h1, h2, h3, h4, h5, h6, h7, h8, h9⟩ := hk
  unfold buildLatestParams
  rw [lookup_strParam_skip _ _ h1, lookup_strParam_skip _ _ h2,
    lookup_strParam_skip _ _ h3, lookup_boolParam_skip _ _ h4,
    lookup_strParam_skip _ _ h5, lookup_strParam_skip _ _ h6,
    lookup_intParam_skip _ _ h7, lookup_intParam_skip _ _ h8]
  exact lookup_strParam_bare _ _ h9 _

/-- Parameter maps of the two endpoint operations coincide; the source
repeats the same nine lines in both functions. -/
theorem buildHistoricalParams_eq_buildLatestParams (f : ScoreFilter) :
    buildHistoricalParams f = buildLatestParams f := rfl

theorem asStr_strVal (a : Option String) (h : a ≠ some "") : asStr (strVal a) = a := by
  match a with
  | none => rfl
  | some s =>
    have hs : s ≠ "" := fun he => h (by rw [he])
    simp [strVal, asStr, hs]

theorem asInt_intVal (a : Option Int) (h : a ≠ some 0) : asInt (intVal a) = a := by
  match a with
  | none => rfl
  | some x =>
    have hx : x ≠ 0 := fun he => h (by rw [he])
    simp [intVal, asInt, hx]

theorem asBool_boolVal (a : Option Bool) : asBool (boolVal a) = a := by
  match a with
  | none => rfl
  | some b => rfl

/-- Claim C1, amended: the parameter-composition step of the query
operation never transmits an undefined field, transmits a defined
is_primeurs with its exact value, false included, and transmits every
other defined field with its exact value exactly when the value is
truthy; a string field explicitly set to the empty string or a numeric
field explicitly set to 0 is omitted, and no key outside the nine filter
fields ever appears. -/
theorem latest_params_transmit_exactly_truthy_fields (f : ScoreFilter) :
    List.lookup "wine_id" (buildLatestParams f) = strVal f.wine_id ∧
    List.lookup "vintage" (buildLatestParams f) = strVal f.vintage ∧
    List.lookup "color" (buildLatestParams f) = strVal f.color ∧
    List.lookup "is_primeurs" (buildLatestParams f) = boolVal f.is_primeurs ∧
    List.lookup "lwin" (buildLatestParams f) = strVal f.lwin ∧
    List.lookup "lwin_11" (buildLatestParams f) = strVal f.lwin_11 ∧
    List.lookup "limit" (buildLatestParams f) = intVal f.limit ∧
    List.lookup "offset" (buildLatestParams f) = intVal f.offset ∧
    List.lookup "ordering" (buildLatestParams f) = strVal f.ordering ∧
    ∀ k : String, k ∉ paramNames → List.lookup k (buildLatestParams f) = none :=
  ⟨lookup_latest_wine_id f, lookup_latest_vintage f, lookup_latest_color f,
    lookup_latest_is_primeurs f, lookup_latest_lwin f, lookup_latest_lwin_11 f,
    lookup_latest_limit f, lookup_latest_offset f, lookup_latest_ordering f,
    lookup_latest_other f⟩

/-- Witness for the amended claim C1 at a concrete filter: an explicitly
false is_primeurs is transmitted, and a key outside the filter fields is
absent. -/
theorem latest_params_transmit_exactly_truthy_fields_witness :
    List.lookup "is_primeurs" (buildLatestParams { is_primeurs := some false }) =
        some (JVal.b false) ∧
    List.lookup "total" (buildLatestParams { is_primeurs := some false }) = none :=
  ⟨(latest_params_transmit_exactly_truthy_fields { is_primeurs := some false }).2.2.2.1,
    (latest_params_transmit_exactly_truthy_fields
        { is_primeurs := some false }).2.2.2.2.2.2.2.2.2 "total" (by decide)⟩

/-- Claim C1 as stated fails on the code: the filter that explicitly
sets offset to 0 does not transmit an offset parameter, because the
source guards the field with a JavaScript truthiness test and 0 is
falsy. -/
theorem latest_params_drop_explicit_zero_offset :
    ({ offset := some 0 } : ScoreFilter).offset = some 0 ∧
    List.lookup "offset" (buildLatestParams { offset := some 0 }) = none := by
  decide

/-- Claim C2: the catch block classifies a failed query by a fixed
precedence order in which the first match wins: status 401 gives the
Unauthenticated branch, else 429 the RateLimited branch, else 403 the
PlanRestricted branch whether or not a detail body is present, else a
response with a detail body gives the RemoteRejected branch, and every
remaining failure, a rejection with no response object included, gives
the TransportFailure branch. -/
theorem classify_precedence (r : ErrorResponse) (message : String) :
    (r.status = 401 →
      classifyError (some r) message = ApiError.unauthenticated authFailedMsg) ∧
    (r.status ≠ 401 → r.status = 429 →
      classifyError (some r) message = ApiError.rateLimited rateLimitedMsg) ∧
    (r.status ≠ 401 → r.status ≠ 429 → r.status = 403 →
      classifyError (some r) message = ApiError.planRestricted forbiddenMsg) ∧
    (∀ d : String, r.status ≠ 401 → r.status ≠ 429 → r.status ≠ 403 →
      r.detail = some d →
      classifyError (some r) message = ApiError.remoteRejected ("API Error: " ++ d)) ∧
    (r.status ≠ 401 → r.status ≠ 429 → r.status ≠ 403 → r.detail = none →
      classifyError (some r) message =
        ApiError.transportFailure ("Request failed: " ++ message)) ∧
    classifyError none message =
      ApiError.transportFailure ("Request failed: " ++ message) := by
  refine ⟨?_, ?_, ?_, ?_, ?_, rfl⟩ <;> intros <;> simp [classifyError, *]

/-- Witness for claim C2 at the overlapping case the specification
singles out: a 403 response that also carries a detail body still lands
in the PlanRestricted branch. -/
theorem classify_precedence_witness :
    classifyError (some { status := 403, detail := some "upgrade required" }) "m" =
      ApiError.planRestricted forbiddenMsg :=
  (classify_precedence { status := 403, detail := some "upgrade required" } "m").2.2.1
    (by decide) (by decide) rfl

/-- Claim C5, amended: a non-2xx response outside 401, 429 and 403 whose
body carries a detail field lands in the RemoteRejected branch, and the
message of the raised error is the string API Error followed by a colon,
a space and the detail string; the detail itself is interpolated
unchanged but carries that fixed prefix. -/
theorem remote_rejected_prefixes_detail (r : ErrorResponse) (message d : String)
    (h1 : r.status ≠ 401) (h2 : r.status ≠ 429) (h3 : r.status ≠ 403)
    (hd : r.detail = some d) :
    classifyError (some r) message = ApiError.remoteRejected ("API Error: " ++ d) := by
  simp [classifyError, h1, h2, h3, hd]

/-- Witness for the amended claim C5 at the example of the
specification. -/
theorem remote_rejected_prefixes_detail_witness :
    classifyError (some { status := 400, detail := some "invalid vintage" })
        "Request failed with status code 400" =
      ApiError.remoteRejected ("API Error: " ++ "invalid vintage") :=
  remote_rejected_prefixes_detail
    { status := 400, detail := some "invalid vintage" }
    "Request failed with status code 400" "invalid vintage"
    (by decide) (by decide) (by decide) rfl

/-- Claim C5 as stated fails on the code: at the specification example,
a 400 response with detail invalid vintage, the raised message is API
Error: invalid vintage, which is not the bare detail string. -/
theorem remote_rejected_message_not_bare_detail :
    classifyError (some { status := 400, detail := some "invalid vintage" })
        "Request failed with status code 400" =
      ApiError.remoteRejected "API Error: invalid vintage" ∧
    ApiError.remoteRejected "API Error: invalid vintage" ≠
      ApiError.remoteRejected "invalid vintage" := by
  decide

/-- Claim C3: the claim is right about the intent and the code diverges.
The getTopRated literal hard-codes the entry ordering equal to -score,
unlike its sibling helpers, which write `options.ordering || defaultOrd`;
yet the spread of options follows the entry, so a caller-supplied
ordering silently overwrites the hard-coded one.  At the failing input,
an options object carrying ordering date, the transmitted ordering is
date; with no caller ordering the default -score and with no caller
limit the default 20 are transmitted as the claim states. -/
theorem top_rated_ordering_overridden_by_options :
    List.lookup "ordering" (getTopRatedReq { ordering := some "date" }).params =
      some (JVal.s "date") ∧
    some (JVal.s "date") ≠ some (JVal.s "-score") ∧
    List.lookup "ordering" (getTopRatedReq {}).params = some (JVal.s "-score") ∧
    List.lookup "limit" (getTopRatedReq {}).params = some (JVal.n 20) := by
  decide

/-- Claim C4, amended: when the credential provider yields no token the
operation fails before any network call, with zero HTTP GET calls
issued; the raised error reports the unconfigured token, but it is
surfaced through the generic catch-all branch, with message Request
failed: API token not configured ..., and not through the branch the
taxonomy calls Unauthenticated, because getHeaders throws inside the
try block and the thrown error has no response field. -/
theorem no_token_fails_before_any_get (transport : HttpGet → TransportOutcome)
    (endpoint : String) (params : List (String × JVal)) :
    request none transport endpoint params =
      { outcome := Except.error
          (ApiError.transportFailure ("Request failed: " ++ noTokenMsg)),
        getCount := 0 } := rfl

/-- Claim C4 as stated fails on the code: with no token the outcome is
classified in the TransportFailure branch, not the Unauthenticated one,
although no GET is issued. -/
theorem no_token_error_is_not_unauthenticated :
    errorKind (request none (fun _ => TransportOutcome.err none "boom")
        "/globalwinescores/latest/" []).outcome = some "TransportFailure" ∧
    errorKind (request none (fun _ => TransportOutcome.err none "boom")
        "/globalwinescores/latest/" []).outcome ≠ some "Unauthenticated" ∧
    (request none (fun _ => TransportOutcome.err none "boom")
        "/globalwinescores/latest/" []).getCount = 0 := by
  decide

/-- Claim C6: every invocation of request issues at most one HTTP GET
and never retries; with a token present and a simulated 429 rejection
the outcome is the RateLimited branch after exactly one call. -/
theorem request_single_get_no_retry (token : Option String)
    (transport : HttpGet → TransportOutcome)
    (endpoint : String) (params : List (String × JVal)) :
    (request token transport endpoint params).getCount ≤ 1 ∧
    (∀ (t : String) (d : Option String) (m : String), token = some t →
      transport { url := BASE_URL ++ endpoint, headers := requestHeaders t,
                  params := params } =
        TransportOutcome.err (some { status := 429, detail := d }) m →
      request token transport endpoint params =
        { outcome := Except.error (ApiError.rateLimited rateLimitedMsg),
          getCount := 1 }) := by
  constructor
  · cases token with
    | none => simp [request, getHeaders]
    | some t =>
      simp only [request, getHeaders]
      split <;> simp
  · intro t d m ht htr
    subst ht
    simp only [request, getHeaders]
    rw [htr]
    simp [classifyError]

/-- Witness for claim C6: a concrete transport that answers 429 once
produces the RateLimited outcome with exactly one GET issued. -/
theorem request_single_get_no_retry_witness :
    request (some "tkn")
        (fun _ => TransportOutcome.err (some { status := 429, detail := none })
          "Request failed with status code 429")
        "/globalwinescores/latest/" [] =
      { outcome := Except.error (ApiError.rateLimited rateLimitedMsg),
        getCount := 1 } :=
  (request_single_get_no_retry (some "tkn")
      (fun _ => TransportOutcome.err (some { status := 429, detail := none })
        "Request failed with status code 429")
      "/globalwinescores/latest/" []).2
    "tkn" none "Request failed with status code 429" rfl rfl

/-- Claim C7, amended: when the options object does not itself carry a
color key, the by-color operation transmits the lower-cased color
argument, provided that value is nonempty; and when the options supply
no limit or no ordering the transmitted defaults are limit 50 and
ordering -score.  An options object carrying its own color key
overwrites the lower-cased argument through the spread. -/
theorem by_color_lowercases_and_defaults (color : String) (options : ScoreFilter)
    (hc : options.color = none) (hne : jsToLowerCase color ≠ "") :
    List.lookup "color" (getScoresByColorReq color options).params =
      some (JVal.s (jsToLowerCase color)) ∧
    (options.limit = none →
      List.lookup "limit" (getScoresByColorReq color options).params =
        some (JVal.n 50)) ∧
    (options.ordering = none →
      List.lookup "ordering" (getScoresByColorReq color options).params =
        some (JVal.s "-score")) := by
  refine ⟨?_, ?_, ?_⟩
  · have h := lookup_latest_color (getScoresByColorFilter color options)
    rw [show (getScoresByColorReq color options).params =
        buildLatestParams (getScoresByColorFilter color options) from rfl, h]
    simp [getScoresByColorFilter, spreadField, hc, strVal, hne]
  · intro hl
    have h := lookup_latest_limit (getScoresByColorFilter color options)
    rw [show (getScoresByColorReq color options).params =
        buildLatestParams (getScoresByColorFilter color options) from rfl, h]
    simp [getScoresByColorFilter, spreadField, hl, jsOrInt, intVal]
  · intro ho
    have h := lookup_latest_ordering (getScoresByColorFilter color options)
    rw [show (getScoresByColorReq color options).params =
        buildLatestParams (getScoresByColorFilter color options) from rfl, h]
    simp [getScoresByColorFilter, spreadField, ho, jsOrStr, strVal]

/-- Witness for the amended claim C7: the argument RED with empty
options is transmitted as color red alongside the two defaults. -/
theorem by_color_lowercases_and_defaults_witness :
    List.lookup "color" (getScoresByColorReq "RED" {}).params =
      some (JVal.s (jsToLowerCase "RED")) ∧
    List.lookup "limit" (getScoresByColorReq "RED" {}).params = some (JVal.n 50) ∧
    List.lookup "ordering" (getScoresByColorReq "RED" {}).params =
      some (JVal.s "-score") := by
  have h := by_color_lowercases_and_defaults "RED" {} rfl (by decide)
  exact ⟨h.1, h.2.1 rfl, h.2.2 rfl⟩

/-- Claim C7 as stated fails on the code in one corner: an options
object that itself carries a color key overwrites the lower-cased
argument, so the transmitted color is not the lower-cased argument. -/
theorem by_color_argument_overridden_by_options :
    List.lookup "color" (getScoresByColorReq "RED" { color := some "WHITE" }).params =
      some (JVal.s "WHITE") ∧
    some (JVal.s "WHITE") ≠ some (JVal.s "red") := by
  decide

/-- Claim C8: a fulfilled GET returns the response body to the caller
verbatim, with no field coerced, renamed, filtered or defaulted, and
with the order of the results sequence untouched; the operation returns
exactly the body the transport produced. -/
theorem success_returns_body_verbatim (t : String)
    (transport : HttpGet → TransportOutcome) (f : ScoreFilter) (body : Json)
    (h : transport { url := BASE_URL ++ "/globalwinescores/latest/",
                     headers := requestHeaders t, params := buildLatestParams f } =
      TransportOutcome.ok body) :
    getLatestScores (some t) transport f =
      { outcome := Except.ok body, getCount := 1 } := by
  simp only [getLatestScores, getLatestScoresReq, request, getHeaders]
  rw [h]

/-- Witness for claim C8: a concrete two-element page comes back as the
identical value, server order preserved. -/
theorem success_returns_body_verbatim_witness :
    getLatestScores (some "tkn") (fun _ => TransportOutcome.ok samplePage) {} =
      { outcome := Except.ok samplePage, getCount := 1 } :=
  success_returns_body_verbatim "tkn" (fun _ => TransportOutcome.ok samplePage)
    {} samplePage rfl

/-- Claim C9, amended: serialising a filter to query parameters and
parsing the parameters back by the same rules reconstructs the filter
exactly, provided every defined string field is nonempty and every
defined numeric field is nonzero; a defined field holding a falsy value
is dropped by the truthiness test and does not survive the round
trip. -/
theorem round_trip_truthy_filter (f : ScoreFilter) (h : truthyFilter f) :
    parseParams (buildLatestParams f) = f := by
  obtain ⟨h1, h2, h3, h5, h6, h7, h8, h9⟩ := h
  simp only [parseParams, lookup_latest_wine_id, lookup_latest_vintage,
    lookup_latest_color, lookup_latest_is_primeurs, lookup_latest_lwin,
    lookup_latest_lwin_11, lookup_latest_limit, lookup_latest_offset,
    lookup_latest_ordering, asStr_strVal _ h1, asStr_strVal _ h2,
    asStr_strVal _ h3, asBool_boolVal, asStr_strVal _ h5, asStr_strVal _ h6,
    asInt_intVal _ h7, asInt_intVal _ h8, asStr_strVal _ h9]

/-- Witness for the amended claim C9 at a fully defined truthy
filter. -/
theorem round_trip_truthy_filter_witness :
    parseParams (buildLatestParams sampleFilter) = sampleFilter :=
  round_trip_truthy_filter sampleFilter
    (by unfold truthyFilter sampleFilter; decide)

/-- Claim C9 as stated fails on the code: a filter that defines offset
as 0 serialises to a map with no offset key, so parsing back leaves the
field undefined and the round trip loses a defined field. -/
theorem round_trip_loses_zero_offset :
    (parseParams (buildLatestParams { offset := some 0 })).offset = none ∧
    ({ offset := some 0 } : ScoreFilter).offset = some 0 := by
  decide

/-- Claim C10: for every filter the latest and the historical operation
compose identical parameter maps and differ only in the endpoint path
they request. -/
theorem latest_historical_same_params_different_endpoint (f : ScoreFilter) :
    (getLatestScoresReq f).params = (getHistoricalScoresReq f).params ∧
    (getLatestScoresReq f).endpoint = "/globalwinescores/latest/" ∧
    (getHistoricalScoresReq f).endpoint = "/globalwinescores/" :=
  ⟨rfl, rfl, rfl⟩

end GWS
